import Mathlib

/-!
Verification development for `rss_summarizer.py`, a periodic RSS
fetch-filter-summarize-republish pipeline.  The Python source is embedded
shallowly: pure data flow becomes Lean functions, external collaborators
(feed fetching, `dateutil` date parsing, the LLM call, the template
renderer, the feed serializer and the file system) become explicit oracle
parameters, and the process-level effects `sys.exit` and uncaught
exceptions become explicit outcome values.  Instants are modelled as
integers (seconds since the Unix epoch); a `dateutil` result is either an
`aware` instant or a `naive` wall-clock reading (recorded as the instant
obtained by reading its fields as UTC), since Python raises a `TypeError`
when a naive datetime is compared against an aware one.
-/

/-- Result of `dateutil.parser.parse` on a date string: a timezone-aware
datetime (its UTC instant) or a timezone-naive one (its wall-clock fields
read as UTC).  A failing parse is `none` at the use sites. -/
inductive PDate
  | aware (t : Int)
  | naive (t : Int)
  deriving DecidableEq

/-- A fetched feed entry as consumed by `get_recent_entries`:
`published = none` models an entry object without a `published`
attribute. -/
structure Entry where
  title : String
  published : Option String
  deriving DecidableEq

/-- The filter body of `get_recent_entries` (src lines 58-65): keep an
entry iff it has a `published` attribute, `dateutil` parses it, and the
comparison `pub_date > cutoff` succeeds and is true.  A parse failure or
a naive result (whose comparison with the aware `cutoff` raises
`TypeError`) is caught by the `except` clause and the entry is skipped. -/
def keepEntry (parse : String → Option PDate) (cutoff : Int) (e : Entry) : Bool :=
  match e.published with
  | none => false
  | some s =>
    match parse s with
    | none => false
    | some (.naive _) => false
    | some (.aware t) => decide (cutoff < t)

/-- The recent-entry filter of `get_recent_entries` applied to a parsed
feed's entry list (src lines 57-69). -/
def filterRecent (parse : String → Option PDate) (cutoff : Int) (es : List Entry) : List Entry :=
  es.filter (keepEntry parse cutoff)

/-- `get_recent_entries` (src lines 28-73): the fetch/parse oracle returns
`none` when `feedparser.parse` raises, in which case the outer `except`
returns the empty list so other feeds can still be tried.  The URL is an
`Option String` because a configured `url:` key may hold null, which the
loader passes through. -/
def get_recent_entries (parse : String → Option PDate)
    (fetch : Option String → Option (List Entry)) (cutoff : Int)
    (url : Option String) : List Entry :=
  match fetch url with
  | none => []
  | some es => filterRecent parse cutoff es

/-- The aggregation loop of `run_summary_cycle` (src lines 367-375):
each configured URL contributes its recent entries, in configuration
order. -/
def aggregate (parse : String → Option PDate)
    (fetch : Option String → Option (List Entry))
    (cutoff : Int) (urls : List (Option String)) : List Entry :=
  urls.flatMap (get_recent_entries parse fetch cutoff)

/-- One `feeds:` list element of the YAML configuration, as inspected by
`load_feeds_from_yaml` (src line 89): `isDict` is the
`isinstance(feed, dict)` test, `hasUrl` the `'url' in feed` test, and
`url` the value `feed.get('url')` — `none` when the key holds null
(or is absent). -/
structure FeedItem where
  isDict : Bool
  hasUrl : Bool
  url : Option String
  deriving DecidableEq

/-- The observable shape of the configuration file for
`load_feeds_from_yaml`: missing file, YAML that fails to load, a loaded
document without a `feeds` list, or a `feeds` list. -/
inductive ConfigFile
  | missing
  | unreadable
  | invalid
  | parsed (items : List FeedItem)
  deriving DecidableEq

/-- URL extraction of src line 89: keep `feed.get('url')` for every list
element that is a dict carrying a `url` key — including a key holding
null, which contributes `none` to the resulting list. -/
def extractUrls (items : List FeedItem) : List (Option String) :=
  items.filterMap (fun i => if i.isDict && i.hasUrl then some i.url else none)

/-- `load_feeds_from_yaml` (src lines 75-105): every failure branch calls
`sys.exit(1)` — modelled as `Except.error 1`, the `SystemExit(1)` the call
raises — otherwise the extracted URL list is returned. -/
def load_feeds_from_yaml : ConfigFile → Except Nat (List (Option String))
  | .missing => .error 1
  | .unreadable => .error 1
  | .invalid => .error 1
  | .parsed items =>
    let urls := extractUrls items
    if urls = [] then .error 1 else .ok urls

/-- The epoch-seconds reading of `datetime.datetime.min` with a UTC zone
attached, the sort key substituted at src line 384 for entries without a
`published` attribute. -/
def minDate : Int := -62135596800

/-- The sort key of src line 384:
`date_parser.parse(x.published) if hasattr(x, 'published') else
datetime.datetime.min.replace(tzinfo=datetime.timezone.utc)`.
`none` marks a key whose computation raises (unparseable string). -/
def sortKeyE (parse : String → Option PDate) (e : Entry) : Option PDate :=
  match e.published with
  | none => some (.aware minDate)
  | some s => parse s

/-- Whether a computed sort key is an aware datetime. -/
def keyAware : Option PDate → Bool
  | some (.aware _) => true
  | _ => false

/-- Whether a computed sort key is a naive datetime. -/
def keyNaive : Option PDate → Bool
  | some (.naive _) => true
  | _ => false

/-- The instant of an entry's sort key when that key is aware, and
`minDate` otherwise (total so it can appear in sort relations). -/
def awareTime (parse : String → Option PDate) (e : Entry) : Int :=
  match sortKeyE parse e with
  | some (.aware t) => t
  | _ => minDate

/-- The wall-clock reading of an entry's sort key when that key is naive,
and `minDate` otherwise. -/
def naiveTime (parse : String → Option PDate) (e : Entry) : Int :=
  match sortKeyE parse e with
  | some (.naive t) => t
  | _ => minDate

/-- Descending-by-aware-key order used to model
`sort(key=..., reverse=True)` at src line 384. -/
def descLE (parse : String → Option PDate) (a b : Entry) : Prop :=
  awareTime parse b ≤ awareTime parse a

instance (parse : String → Option PDate) : DecidableRel (descLE parse) :=
  fun a b => inferInstanceAs (Decidable (awareTime parse b ≤ awareTime parse a))

instance (parse : String → Option PDate) : IsTotal Entry (descLE parse) :=
  ⟨fun a b => le_total (awareTime parse b) (awareTime parse a)⟩

instance (parse : String → Option PDate) : IsTrans Entry (descLE parse) :=
  ⟨fun _ _ _ h1 h2 => le_trans h2 h1⟩

/-- Descending-by-naive-key order, for lists whose keys are all naive
(Python compares naive datetimes among themselves without error). -/
def descLEnaive (parse : String → Option PDate) (a b : Entry) : Prop :=
  naiveTime parse b ≤ naiveTime parse a

instance (parse : String → Option PDate) : DecidableRel (descLEnaive parse) :=
  fun a b => inferInstanceAs (Decidable (naiveTime parse b ≤ naiveTime parse a))

/-- The sort of src line 384.  CPython first computes every key (raising if
any date string fails to parse), then timsort compares adjacent keys, which
raises `TypeError` as soon as a naive and an aware key meet; a list whose
keys all parse and are homogeneous sorts stably, descending, which a stable
insertion sort under the reversed key order reproduces.  `none` marks the
runs on which Python raises. -/
def sortCycle (parse : String → Option PDate) (es : List Entry) : Option (List Entry) :=
  let keys := es.map (sortKeyE parse)
  if keys.all keyAware then some (List.insertionSort (descLE parse) es)
  else if keys.all keyNaive then some (List.insertionSort (descLEnaive parse) es)
  else none

/-- One item of a prior entry's `content` list as returned by
`feedparser` (src lines 175-184): its `value` and its `type` key. -/
structure ContentItem where
  value : Option String
  ctype : Option String
  deriving DecidableEq

/-- A prior entry of the existing output feed as read back by
`feedparser` and consumed by the old-entry loop of `generate_rss_feed`
(src lines 168-210).  `published_parsed` / `updated_parsed` carry the UTC
instant encoded by the `struct_time` (its fields read as UTC), `published`
the raw date string. -/
structure PrevEntry where
  title : Option String
  id : Option String
  link : Option String
  content : List ContentItem
  summary : Option String
  description : Option String
  published_parsed : Option Int
  updated_parsed : Option Int
  published : Option String
  deriving DecidableEq

/-- One `links` element of the parsed feed metadata (src lines 153-156). -/
structure LinkItem where
  rel : Option String
  href : Option String
  deriving DecidableEq

/-- The successfully parsed existing output feed (src lines 150-167):
metadata fields as optionally present keys plus the prior entry list.
`generate_rss_feed` reaches this shape only when the file exists,
`feedparser` reports no `bozo` error and the feed dict is non-empty. -/
structure ParsedFeed where
  title : Option String
  link : Option String
  links : List LinkItem
  description : Option String
  language : Option String
  entries : List PrevEntry
  deriving DecidableEq

/-- Body payload attached to a regenerated entry (src lines 174-188). -/
inductive Body
  | contentHtml (v : Option String)
  | contentText (v : Option String)
  | bodySummary (s : String)
  | bodyDescription (s : String)
  | noBody
  deriving DecidableEq

/-- An entry of the regenerated output feed document. -/
structure OutEntry where
  title : String
  id : String
  link : String
  body : Body
  pubDate : Option Int
  deriving DecidableEq

/-- The regenerated output feed document built in memory by
`generate_rss_feed` before the single write. -/
structure OutFeed where
  title : String
  link : String
  description : String
  language : String
  entries : List OutEntry
  deriving DecidableEq

/-- Python's `pat in s` substring test, used for `'html' in content_type`
(src line 181). -/
def strContains (s pat : String) : Bool := (s.splitOn pat).length != 1

/-- The description fallback of src lines 187-188: `elif
entry.get('description'):` emits a description only when the key holds a
truthy (non-empty) string. -/
def descBody (e : PrevEntry) : Body :=
  match e.description with
  | some d => if d = "" then .noBody else .bodyDescription d
  | none => .noBody

/-- The content/summary/description selection of src lines 174-188: a
non-empty `content` list wins (html when its type mentions `html`, text
otherwise), else a truthy `summary`, else a truthy `description`. -/
def oldBody (e : PrevEntry) : Body :=
  match e.content with
  | c :: _ =>
    if strContains (c.ctype.getD "text/plain") "html" then .contentHtml c.value
    else .contentText c.value
  | [] =>
    match e.summary with
    | some s => if s = "" then descBody e else .bodySummary s
    | none => descBody e

/-- The string-date fallback of src lines 198-210: parse the `published`
string; an aware result keeps its instant, a naive result is stamped UTC
(`replace(tzinfo=utc)`, so its wall fields read as UTC become the
instant), then `astimezone` only changes the rendering zone.  A raised
parse error is caught and yields no date. -/
def pubFallback (parse : String → Option PDate) : Option String → Option Int
  | none => none
  | some s =>
    match parse s with
    | none => none
    | some (.aware t) => some t
    | some (.naive t) => some t

/-- The publication date of a re-emitted prior entry (src lines 190-210).
The structured path computes
`datetime.fromtimestamp(time.mktime(pub_date_parsed), tz=utc)`:
`time.mktime` reads the UTC `struct_time` as LOCAL wall time, so the
resulting instant is the original instant minus `off`, the host zone's
UTC offset in seconds (east positive; DST ignored, as the struct carries
`tm_isdst = 0`). -/
def oldPubDate (off : Int) (parse : String → Option PDate) (e : PrevEntry) : Option Int :=
  match e.published_parsed.or e.updated_parsed with
  | some t => some (t - off)
  | none => pubFallback parse e.published

/-- The re-emission of one prior entry (src lines 168-210): title with
`''` default, id falling back to the link then `''`, link with `''`
default, body selection and publication date as above. -/
def mkOld (off : Int) (parse : String → Option PDate) (e : PrevEntry) : OutEntry :=
  { title := e.title.getD ""
    id := e.id.getD (e.link.getD "")
    link := e.link.getD ""
    body := oldBody e
    pubDate := oldPubDate off parse e }

/-- Default feed description of src line 119. -/
def defaultDesc : String := "Daily summary of RSS feeds summarized by LLMs."

/-- Default feed language of src line 120. -/
def defaultLang : String := "en"

/-- The alternate-link lookup of src lines 153-154: the `href` of the
first `links` element whose `rel` is `alternate`, when it has one. -/
def altLinkHref (links : List LinkItem) : Option String :=
  (links.find? (fun l => l.rel == some "alternate")).bind (fun l => l.href)

/-- The in-memory document construction of `generate_rss_feed`
(src lines 109-217): the new summary entry is prepended (title and id
derived from the generation instant `now`, link pointing at the feed
itself, body as html content, publication date `now`), then, when an
existing feed parsed, its metadata is copied with configuration fallbacks
and every prior entry is appended in order; otherwise the defaults alone
are used and the new entry is the only one. -/
def generate_rss_feed (off now : Int) (parse : String → Option PDate)
    (defaultTitle feedLink : String) (parsedFeed : Option ParsedFeed)
    (summaryText : String) : OutFeed :=
  let ne : OutEntry :=
    { title := "Summary for " ++ toString now
      id := "urn:uuid:" ++ toString now
      link := feedLink
      body := .contentHtml (some summaryText)
      pubDate := some now }
  match parsedFeed with
  | some pf =>
    { title := pf.title.getD defaultTitle
      link := (altLinkHref pf.links).getD (pf.link.getD feedLink)
      description := pf.description.getD defaultDesc
      language := pf.language.getD defaultLang
      entries := ne :: pf.entries.map (mkOld off parse) }
  | none =>
    { title := defaultTitle
      link := feedLink
      description := defaultDesc
      language := defaultLang
      entries := [ne] }

/-- Outcome of `summarize_with_llm` (src lines 253-354): `sysExit c`
models the `sys.exit(c)` taken when the model cannot be obtained — i.e.
the function raising `SystemExit(c)` instead of returning — `noSummary`
the `return None` taken on template or LLM-call failure, `summary s` a
successful summary. -/
inductive SumOutcome
  | sysExit (c : Nat)
  | noSummary
  | summary (s : String)
  deriving DecidableEq

/-- `summarize_with_llm` (src lines 253-354).  `modelOk` is whether
`llm.get_model` succeeds: both `UnknownModelError` and any other lookup
error call `sys.exit(1)` (src lines 294-299).  `render` models the Jinja
template rendering of the entry list (`none` = raised, caught, `return
None`), `llmCall` the prompt call (`none` = raised, caught, `return
None`). -/
def summarize_with_llm (modelOk : Bool) (render : List Entry → Option String)
    (llmCall : String → Option String) (entries : List Entry) : SumOutcome :=
  if modelOk = false then .sysExit 1
  else
    match render entries with
    | none => .noSummary
    | some p =>
      match llmCall p with
      | none => .noSummary
      | some s => .summary s

/-- Outcome of one invocation of `run_summary_cycle` as a function body:
it returns normally (`completed`), it propagates a `SystemExit c` raised
by a `sys.exit(c)` call inside it (`sysExit c`), or it propagates some
other uncaught exception (`raised`). -/
inductive JobOutcome
  | completed
  | sysExit (c : Nat)
  | raised
  deriving DecidableEq

/-- Whether the long-running process survives a cycle with the given job
outcome.  `main` (src lines 441-477) only ever invokes `run_summary_cycle`
as an APScheduler job: `BlockingScheduler` executes jobs on its default
thread-pool executor's worker threads while the main thread blocks in
`scheduler.start()`.  The executor's job wrapper catches and logs every
exception a job raises, `BaseException` included — and CPython in any case
discards a `SystemExit` raised on a non-main thread — so no job outcome,
a propagated `sys.exit` included, terminates the process or its already
started recurring schedule. -/
def processAlive : JobOutcome → Bool
  | .completed => true
  | .sysExit _ => true
  | .raised => true

/-- External collaborators and configuration of one summary cycle. -/
structure CycleEnv where
  cfg : ConfigFile
  fetch : Option String → Option (List Entry)
  parse : String → Option PDate
  cutoff : Int
  modelOk : Bool
  render : List Entry → Option String
  llmCall : String → Option String
  writeOk : Bool
  off : Int
  now : Int
  defaultTitle : String
  feedLink : String
  serialize : OutFeed → String
  parsePrevFile : String → Option ParsedFeed

/-- Observable result of one cycle: whether `summarize_with_llm` was
invoked, the output file content afterwards, and how the job ended. -/
structure CycleResult where
  summarizerCalled : Bool
  file : Option String
  job : JobOutcome
  deriving DecidableEq

/-- `run_summary_cycle` (src lines 356-398) acting on the output file
state (`none` = no file on disk).  `parsePrevFile` models `feedparser` on
the existing file content (`none` = bozo/empty feed, handled as a fresh
feed).  A `sys.exit` reached inside the body (from `load_feeds_from_yaml`
or `summarize_with_llm`) makes the function propagate `SystemExit`,
recorded as `JobOutcome.sysExit`; what that does to the process is the
scheduler's affair (`processAlive`).  The write of src lines 220-227 is
modelled from the spec's write discipline as a single atomic operation:
`writeOk = false` is a raised write error, which the `except` logs,
leaving the previous content as the visible state. -/
def run_summary_cycle (env : CycleEnv) (file : Option String) : CycleResult :=
  match load_feeds_from_yaml env.cfg with
  | .error c => { summarizerCalled := false, file := file, job := .sysExit c }
  | .ok urls =>
    if urls = [] then { summarizerCalled := false, file := file, job := .completed }
    else
      let all := aggregate env.parse env.fetch env.cutoff urls
      if all = [] then { summarizerCalled := false, file := file, job := .completed }
      else
        match sortCycle env.parse all with
        | none => { summarizerCalled := false, file := file, job := .raised }
        | some sorted =>
          match summarize_with_llm env.modelOk env.render env.llmCall sorted with
          | .sysExit c => { summarizerCalled := true, file := file, job := .sysExit c }
          | .noSummary => { summarizerCalled := true, file := file, job := .completed }
          | .summary s =>
            let doc := env.serialize (generate_rss_feed env.off env.now env.parse
              env.defaultTitle env.feedLink (file.bind env.parsePrevFile) s)
            { summarizerCalled := true
              file := if env.writeOk then some doc else file
              job := .completed }

/-- Concrete date-parse oracle for witnesses: `"aw"` parses aware at
instant 100, `"nv"` parses naive at wall reading 100, anything else
fails. -/
def cexParse : String → Option PDate := fun s =>
  if s = "aw" then some (.aware 100)
  else if s = "nv" then some (.naive 100)
  else none

/-- A concrete entry whose date string parses to an aware instant. -/
def entryAw : Entry := { title := "A", published := some "aw" }

/-- A concrete entry whose date string parses to a naive datetime. -/
def entryNv : Entry := { title := "N", published := some "nv" }

/-- Concrete fetch oracle: one known URL with one aware recent entry. -/
def cexFetch : Option String → Option (List Entry) := fun u =>
  if u = some "u1" then some [entryAw] else none

/-- Concrete template-render oracle that always succeeds. -/
def cexRender : List Entry → Option String := fun _ => some "prompt"

/-- Concrete LLM-call oracle that returns a summary. -/
def cexLlmOk : String → Option String := fun _ => some "SUMMARY"

/-- Concrete LLM-call oracle that raises (returns no text). -/
def cexLlmFail : String → Option String := fun _ => none

/-- Base concrete cycle environment for the witnesses: a valid one-URL
configuration whose feed yields one recent aware entry, a working model,
renderer and LLM, and a writable destination. -/
def cexEnv : CycleEnv :=
  { cfg := .parsed [{ isDict := true, hasUrl := true, url := some "u1" }]
    fetch := cexFetch
    parse := cexParse
    cutoff := 0
    modelOk := true
    render := cexRender
    llmCall := cexLlmOk
    writeOk := true
    off := 0
    now := 1000
    defaultTitle := "DT"
    feedLink := "FL"
    serialize := fun _ => "newdoc"
    parsePrevFile := fun _ => none }

/-- Concrete prior entry with a structured publication date at UTC
instant 999000. -/
def bugPrev : PrevEntry :=
  { title := some "old"
    id := some "id1"
    link := some "l1"
    content := []
    summary := none
    description := none
    published_parsed := some 999000
    updated_parsed := none
    published := none }

/-- Concrete existing output feed holding `bugPrev` as its only entry. -/
def bugFeed : ParsedFeed :=
  { title := some "T"
    link := none
    links := []
    description := some "D"
    language := some "en"
    entries := [bugPrev] }

/-- `cexEnv` with every source contributing no recent entries. -/
def cexEnvEmpty : CycleEnv := { cexEnv with fetch := fun _ => some [] }

/-- `cexEnv` with a failing write (destination unwritable). -/
def cexEnvNoWrite : CycleEnv := { cexEnv with writeOk := false }

/-- `cexEnv` with a missing configuration file. -/
def cexEnvBadCfg : CycleEnv := { cexEnv with cfg := ConfigFile.missing }

/-- `cexEnv` with an unknown LLM model (`llm.get_model` raises). -/
def cexEnvBadModel : CycleEnv := { cexEnv with modelOk := false }

/-- `cexEnv` with an LLM call that raises. -/
def cexEnvLlmFail : CycleEnv := { cexEnv with llmCall := cexLlmFail }

theorem keepEntry_eq_true (parse : String → Option PDate) (cutoff : Int) (e : Entry) :
    keepEntry parse cutoff e = true ↔
      ∃ s t, e.published = some s ∧ parse s = some (PDate.aware t) ∧ cutoff < t := by
  unfold keepEntry
  cases hp : e.published with
  | none => simp
  | some s =>
    cases hps : parse s with
    | none => simp [hps]
    | some d =>
      cases d with
      | aware t => simp [hps]
      | naive t => simp [hps]

theorem mem_filterRecent (parse : String → Option PDate) (cutoff : Int)
    (es : List Entry) (e : Entry) :
    e ∈ filterRecent parse cutoff es ↔
      e ∈ es ∧ ∃ s t, e.published = some s ∧ parse s = some (PDate.aware t) ∧ cutoff < t := by
  unfold filterRecent
  rw [List.mem_filter, keepEntry_eq_true]

theorem mem_aggregate_aware (parse : String → Option PDate)
    (fetch : Option String → Option (List Entry)) (cutoff : Int)
    (urls : List (Option String))
    (e : Entry) (h : e ∈ aggregate parse fetch cutoff urls) :
    ∃ s t, e.published = some s ∧ parse s = some (PDate.aware t) ∧ cutoff < t := by
  rcases List.mem_flatMap.1 h with ⟨u, -, hmem⟩
  unfold get_recent_entries at hmem
  cases hf : fetch u with
  | none => simp [hf] at hmem
  | some es =>
    rw [hf] at hmem
    exact ((mem_filterRecent parse cutoff es e).1 hmem).2

/-- Claim C4 (amended): the Recency Filter's output contains exactly the
input entries whose publication time string parses to a timezone-aware
time strictly after the cutoff `now - lookback`; aware times at or before
the cutoff, missing strings, unparseable strings and strings parsing to a
timezone-naive time are all excluded. -/
theorem c4_recency_filter_membership (parse : String → Option PDate) (cutoff : Int)
    (es : List Entry) (e : Entry) :
    e ∈ filterRecent parse cutoff es ↔
      e ∈ es ∧ ∃ s t, e.published = some s ∧ parse s = some (PDate.aware t) ∧ cutoff < t :=
  mem_filterRecent parse cutoff es e

/-- Claim C4 (counterexample): an entry whose publication string parses
(to a naive datetime reading 100) and whose parsed time 100 lies strictly
after the cutoff 0 is nevertheless excluded by the filter, refuting the
claim that every entry with a parsed time after the boundary is
included. -/
theorem c4_naive_in_window_cex :
    cexParse "nv" = some (PDate.naive 100) ∧ ((0 : Int) < 100) ∧
      entryNv.published = some "nv" ∧ filterRecent cexParse 0 [entryNv] = [] := by
  refine ⟨by decide, by decide, rfl, by decide⟩

/-- Claim C9: an entry whose publication string parses to a timezone-naive
datetime is dropped by the Recency Filter even when its time lies within
the lookback window, because the comparison with the aware cutoff raises
and the handler skips the entry. -/
theorem c9_naive_date_dropped (parse : String → Option PDate) (cutoff : Int)
    (es : List Entry) (e : Entry) (s : String) (t : Int)
    (h1 : e.published = some s) (h2 : parse s = some (PDate.naive t)) (_h3 : cutoff < t) :
    e ∉ filterRecent parse cutoff es := by
  intro hmem
  rcases ((mem_filterRecent parse cutoff es e).1 hmem).2 with ⟨s', t', hps, hpt, -⟩
  rw [h1, Option.some_inj] at hps
  subst hps
  rw [h2] at hpt
  cases hpt

/-- Witness for C9 at a concrete naive entry inside the window. -/
theorem c9_naive_date_dropped_witness :
    ((0 : Int) < 100) ∧ entryNv ∉ filterRecent cexParse 0 [entryNv] :=
  ⟨by decide, c9_naive_date_dropped cexParse 0 [entryNv] entryNv "nv" 100 rfl (by decide)
    (by decide)⟩

/-- Claim C6: when the fetch or parse of one configured source raises, that
source contributes the empty list and the aggregate over all sources is
exactly the concatenation of the remaining sources' filtered entries. -/
theorem c6_failed_source_skipped (parse : String → Option PDate)
    (fetch : Option String → Option (List Entry)) (cutoff : Int)
    (a b : List (Option String)) (u : Option String) (h : fetch u = none) :
    get_recent_entries parse fetch cutoff u = [] ∧
      aggregate parse fetch cutoff (a ++ u :: b) =
        aggregate parse fetch cutoff a ++ aggregate parse fetch cutoff b := by
  have hg : get_recent_entries parse fetch cutoff u = [] := by
    unfold get_recent_entries
    rw [h]
  refine ⟨hg, ?_⟩
  simp [aggregate, hg]

/-- Witness for C6: a failing middle source between two good ones. -/
theorem c6_failed_source_skipped_witness :
    get_recent_entries cexParse cexFetch 0 (some "bad") = [] ∧
      aggregate cexParse cexFetch 0 ([some "u1"] ++ some "bad" :: [some "u1"]) =
        aggregate cexParse cexFetch 0 [some "u1"] ++ aggregate cexParse cexFetch 0 [some "u1"] :=
  c6_failed_source_skipped cexParse cexFetch 0 [some "u1"] [some "u1"] (some "bad") (by decide)

/-- Claim C7: the combined list the aggregator passes onward sorts without
error, is a permutation of the aggregate, is in descending order of
publication time, and every entry in it has a parseable (timezone-aware)
publication time, so the clause about entries with no parseable time
holds vacuously. -/
theorem c7_aggregate_sorted_descending (parse : String → Option PDate)
    (fetch : Option String → Option (List Entry)) (cutoff : Int)
    (urls : List (Option String)) :
    ∃ l, sortCycle parse (aggregate parse fetch cutoff urls) = some l ∧
      l.Perm (aggregate parse fetch cutoff urls) ∧
      l.Pairwise (fun a b => awareTime parse b ≤ awareTime parse a) ∧
      ∀ e ∈ l, ∃ s t, e.published = some s ∧ parse s = some (PDate.aware t) := by
  have hall : ((aggregate parse fetch cutoff urls).map (sortKeyE parse)).all keyAware = true := by
    rw [List.all_eq_true]
    intro k hk
    rcases List.mem_map.1 hk with ⟨e, he, rfl⟩
    rcases mem_aggregate_aware parse fetch cutoff urls e he with ⟨s, t, h1, h2, -⟩
    simp [sortKeyE, h1, h2, keyAware]
  have hsc : sortCycle parse (aggregate parse fetch cutoff urls) =
      some (List.insertionSort (descLE parse) (aggregate parse fetch cutoff urls)) := by
    unfold sortCycle
    rw [if_pos hall]
  refine ⟨_, hsc, List.perm_insertionSort _ _, ?_, ?_⟩
  · exact List.sorted_insertionSort (descLE parse) (aggregate parse fetch cutoff urls)
  · intro e he
    have hmem : e ∈ aggregate parse fetch cutoff urls :=
      (List.perm_insertionSort (descLE parse) (aggregate parse fetch cutoff urls)).mem_iff.1 he
    rcases mem_aggregate_aware parse fetch cutoff urls e hmem with ⟨s, t, h1, h2, -⟩
    exact ⟨s, t, h1, h2⟩

/-- Claim C10: when extending an existing feed, every prior entry is
re-emitted (the output has one entry more, and the prior entry at index
`i` reappears at output index `i + 1`), with its title, identifier, link
and content selection preserved; when both structured dates are absent
and the date string is absent or unparseable the entry is emitted merely
without a publication date; a missing identifier falls back to the link
and then to the empty string. -/
theorem c10_prior_entry_preserved (off now : Int) (parse : String → Option PDate)
    (dT fL st : String) (pf : ParsedFeed) (i : Nat) (e : PrevEntry)
    (h : pf.entries[i]? = some e) :
    (generate_rss_feed off now parse dT fL (some pf) st).entries.length
        = pf.entries.length + 1 ∧
      (generate_rss_feed off now parse dT fL (some pf) st).entries[i + 1]?
        = some (mkOld off parse e) ∧
      (mkOld off parse e).title = e.title.getD "" ∧
      (mkOld off parse e).id = e.id.getD (e.link.getD "") ∧
      (mkOld off parse e).link = e.link.getD "" ∧
      (mkOld off parse e).body = oldBody e ∧
      (e.published_parsed = none → e.updated_parsed = none →
        pubFallback parse e.published = none → (mkOld off parse e).pubDate = none) := by
  refine ⟨?_, ?_, rfl, rfl, rfl, rfl, ?_⟩
  · simp [generate_rss_feed]
  · simp [generate_rss_feed, List.getElem?_cons_succ, List.getElem?_map, h]
  · intro h1 h2 h3
    simp [mkOld, oldPubDate, h1, h2, h3]

/-- Witness for C10 on the concrete one-entry feed. -/
theorem c10_prior_entry_preserved_witness :
    bugFeed.entries[0]? = some bugPrev ∧
      (generate_rss_feed 0 5 cexParse "DT" "FL" (some bugFeed) "S").entries[1]?
        = some (mkOld 0 cexParse bugPrev) :=
  ⟨rfl, (c10_prior_entry_preserved 0 5 cexParse "DT" "FL" "S" bugFeed 0 bugPrev rfl).2.1⟩

/-- Claim C1 (code bug, concrete evaluation): with the host zone five
hours west of UTC (`off = -18000` seconds) and generation instant
1000000, extending a feed whose single prior entry has the valid
structured date 999000 (which is at most the generation instant) yields
the prior entry re-emitted at instant 1017000 — `time.mktime` misreads
the UTC `struct_time` as local time — so the output timestamps increase
from the new first entry to the second, violating non-increasing order. -/
theorem c1_mktime_shifts_prior_timestamp :
    (generate_rss_feed (-18000) 1000000 cexParse "DT" "FL" (some bugFeed) "S").entries.map
        (fun e => e.pubDate) = [some 1000000, some 1017000] ∧
      ((999000 : Int) ≤ 1000000) ∧ ¬ ((1017000 : Int) ≤ 1000000) := by
  refine ⟨by decide, by decide, by decide⟩

/-- Claim C5: when the aggregate over all configured sources is empty,
the cycle returns early: the Summarizer Client is never invoked, the
output file state is untouched, the job completes normally and the
process keeps running. -/
theorem c5_empty_aggregate_skips (env : CycleEnv) (file : Option String)
    (urls : List (Option String))
    (h1 : load_feeds_from_yaml env.cfg = Except.ok urls)
    (h2 : aggregate env.parse env.fetch env.cutoff urls = []) :
    (run_summary_cycle env file).summarizerCalled = false ∧
      (run_summary_cycle env file).file = file ∧
      (run_summary_cycle env file).job = JobOutcome.completed ∧
      processAlive (run_summary_cycle env file).job = true := by
  unfold run_summary_cycle
  rw [h1]
  by_cases hu : urls = []
  · simp [hu, processAlive]
  · simp [hu, h2, processAlive]

/-- Witness for C5: every source fetches an entryless feed. -/
theorem c5_empty_aggregate_skips_witness :
    (run_summary_cycle cexEnvEmpty (some "prev")).summarizerCalled = false ∧
      (run_summary_cycle cexEnvEmpty (some "prev")).file = some "prev" ∧
      (run_summary_cycle cexEnvEmpty (some "prev")).job = JobOutcome.completed ∧
      processAlive (run_summary_cycle cexEnvEmpty (some "prev")).job = true :=
  c5_empty_aggregate_skips cexEnvEmpty (some "prev") [some "u1"] rfl rfl

/-- Claim C2: a cycle that reaches the write with a produced summary but
whose single write operation fails leaves the previously existing output
file content as the visible state; the raised write error is caught and
logged, so the job completes normally and the process keeps running. -/
theorem c2_failed_write_keeps_file (env : CycleEnv) (file : Option String)
    (urls : List (Option String)) (l : List Entry) (s : String)
    (h1 : load_feeds_from_yaml env.cfg = Except.ok urls)
    (h2 : ¬ aggregate env.parse env.fetch env.cutoff urls = [])
    (h3 : sortCycle env.parse (aggregate env.parse env.fetch env.cutoff urls) = some l)
    (h4 : summarize_with_llm env.modelOk env.render env.llmCall l = SumOutcome.summary s)
    (h5 : env.writeOk = false) :
    (run_summary_cycle env file).file = file ∧
      (run_summary_cycle env file).job = JobOutcome.completed ∧
      processAlive (run_summary_cycle env file).job = true := by
  have hu : ¬ urls = [] := by
    intro he
    exact h2 (by simp [aggregate, he])
  unfold run_summary_cycle
  rw [h1]
  simp [hu, h2, h3, h4, h5, processAlive]

/-- Witness for C2: the concrete cycle with an unwritable destination. -/
theorem c2_failed_write_keeps_file_witness :
    (run_summary_cycle cexEnvNoWrite (some "prev")).file = some "prev" ∧
      (run_summary_cycle cexEnvNoWrite (some "prev")).job = JobOutcome.completed ∧
      processAlive (run_summary_cycle cexEnvNoWrite (some "prev")).job = true :=
  c2_failed_write_keeps_file cexEnvNoWrite (some "prev") [some "u1"] [entryAw] "SUMMARY"
    rfl (by decide) (by decide) rfl rfl

/-- Claim C8 (code bug, concrete evaluation): a missing configuration
file (likewise unreadable YAML or an invalid document) makes
`load_feeds_from_yaml` call `sys.exit(1)`, and the cycle's later steps —
fetching, summarizing, writing — indeed never run; but because the cycle
executes as a scheduled job on a worker thread, the raised `SystemExit`
only ends the job: the process, its recurring schedule already started,
keeps running instead of exiting with a non-zero status as the claim
requires. -/
theorem c8_bad_config_does_not_kill_process :
    load_feeds_from_yaml ConfigFile.missing = Except.error 1 ∧
      load_feeds_from_yaml ConfigFile.unreadable = Except.error 1 ∧
      load_feeds_from_yaml ConfigFile.invalid = Except.error 1 ∧
      (run_summary_cycle cexEnvBadCfg (some "prev")).job = JobOutcome.sysExit 1 ∧
      (run_summary_cycle cexEnvBadCfg (some "prev")).summarizerCalled = false ∧
      (run_summary_cycle cexEnvBadCfg (some "prev")).file = some "prev" ∧
      processAlive (run_summary_cycle cexEnvBadCfg (some "prev")).job = true := by
  refine ⟨rfl, rfl, rfl, by decide, by decide, by decide, by decide⟩

/-- Claim C3 (counterexample): with an unknown model, `summarize_with_llm`
does not return the no-summary signal — it calls `sys.exit(1)`, raising
`SystemExit(1)`, which aborts the rest of the job — refuting the claim
that every Summarizer Client failure returns an explicit no-summary
signal. -/
theorem c3_unknown_model_no_signal_cex :
    summarize_with_llm false cexRender cexLlmOk [entryAw] = SumOutcome.sysExit 1 ∧
      summarize_with_llm false cexRender cexLlmOk [entryAw] ≠ SumOutcome.noSummary ∧
      (run_summary_cycle cexEnvBadModel (some "prev")).job = JobOutcome.sysExit 1 ∧
      (run_summary_cycle cexEnvBadModel (some "prev")).file = some "prev" := by
  refine ⟨rfl, by decide, by decide, by decide⟩

/-- Claim C3 (amended): a failure of the Summarizer Client during
template rendering or the LLM call returns the explicit no-summary
signal and the cycle completes without regenerating the feed; an unknown
model or a failure obtaining the model instance instead raises
`SystemExit(1)` via `sys.exit`, aborting the rest of the job.  In either
case the output file is left unchanged and the long-running process —
whose scheduler catches everything a job raises — is not terminated. -/
theorem c3_summarizer_failure_no_regen (env : CycleEnv) (file : Option String)
    (urls : List (Option String)) (l : List Entry)
    (h1 : load_feeds_from_yaml env.cfg = Except.ok urls)
    (h2 : ¬ aggregate env.parse env.fetch env.cutoff urls = [])
    (h3 : sortCycle env.parse (aggregate env.parse env.fetch env.cutoff urls) = some l)
    (h4 : env.render l = none ∨ ∃ p, env.render l = some p ∧ env.llmCall p = none) :
    (env.modelOk = true →
      summarize_with_llm env.modelOk env.render env.llmCall l = SumOutcome.noSummary ∧
        (run_summary_cycle env file).job = JobOutcome.completed) ∧
      (env.modelOk = false →
        summarize_with_llm env.modelOk env.render env.llmCall l = SumOutcome.sysExit 1 ∧
          (run_summary_cycle env file).job = JobOutcome.sysExit 1) ∧
      (run_summary_cycle env file).summarizerCalled = true ∧
      (run_summary_cycle env file).file = file ∧
      processAlive (run_summary_cycle env file).job = true := by
  have hu : ¬ urls = [] := by
    intro he
    exact h2 (by simp [aggregate, he])
  cases hm : env.modelOk with
  | false =>
    have hs : summarize_with_llm env.modelOk env.render env.llmCall l
        = SumOutcome.sysExit 1 := by
      simp [summarize_with_llm, hm]
    have hr : run_summary_cycle env file =
        { summarizerCalled := true, file := file, job := JobOutcome.sysExit 1 } := by
      unfold run_summary_cycle
      rw [h1]
      simp [hu, h2, h3, hs]
    exact ⟨fun ht => absurd ht (by decide), fun _ => ⟨hm ▸ hs, by rw [hr]⟩, by rw [hr],
      by rw [hr], by simp [hr, processAlive]⟩
  | true =>
    have hs : summarize_with_llm env.modelOk env.render env.llmCall l
        = SumOutcome.noSummary := by
      rcases h4 with h4 | ⟨p, hp, hc⟩
      · simp [summarize_with_llm, hm, h4]
      · simp [summarize_with_llm, hm, hp, hc]
    have hr : run_summary_cycle env file =
        { summarizerCalled := true, file := file, job := JobOutcome.completed } := by
      unfold run_summary_cycle
      rw [h1]
      simp [hu, h2, h3, hs]
    exact ⟨fun _ => ⟨hm ▸ hs, by rw [hr]⟩, fun hf => absurd hf (by decide), by rw [hr],
      by rw [hr], by simp [hr, processAlive]⟩

/-- Witness for the amended C3: a raising LLM call on the concrete
cycle. -/
theorem c3_summarizer_failure_no_regen_witness :
    (cexEnvLlmFail.modelOk = true →
      summarize_with_llm cexEnvLlmFail.modelOk cexEnvLlmFail.render cexEnvLlmFail.llmCall
          [entryAw] = SumOutcome.noSummary ∧
        (run_summary_cycle cexEnvLlmFail (some "prev")).job = JobOutcome.completed) ∧
      (cexEnvLlmFail.modelOk = false →
        summarize_with_llm cexEnvLlmFail.modelOk cexEnvLlmFail.render cexEnvLlmFail.llmCall
            [entryAw] = SumOutcome.sysExit 1 ∧
          (run_summary_cycle cexEnvLlmFail (some "prev")).job = JobOutcome.sysExit 1) ∧
      (run_summary_cycle cexEnvLlmFail (some "prev")).summarizerCalled = true ∧
      (run_summary_cycle cexEnvLlmFail (some "prev")).file = some "prev" ∧
      processAlive (run_summary_cycle cexEnvLlmFail (some "prev")).job = true :=
  c3_summarizer_failure_no_regen cexEnvLlmFail (some "prev") [some "u1"] [entryAw]
    rfl (by decide) (by decide) (Or.inr ⟨"prompt", rfl, rfl⟩)
